import Mathlib

/-!
Shallow embedding of `generate_icons.py`, a 17-line script that renders two
square PNG application icons with the PIL library and writes them to disk.

Modelling conventions:
* An in-memory PIL image is an `Icon`: its pixel dimensions, the solid
  background color it was initialised with (`Image.new`), and the ordered
  list of drawing operations performed on it (`ImageDraw`).  Colors are the
  hex-string literals of the source.
* Python `//` on the non-negative quantities of the script is `Nat` division;
  box coordinates, which arise by adding and subtracting such quantities,
  live in `Int`.
* The filesystem is an `FS`: the set of existing directories and a map from
  paths to files.  A path string such as "icons/icon-192.png" is represented
  by its component list `["icons", "icon-192.png"]`; the parent directory of
  a path is all components but the last.  `Image.save` (modelled from the
  spec: PIL raises a filesystem error when the parent directory of the
  target is missing, leaving the filesystem unchanged, and encodes in the
  explicitly passed format) either writes the encoded file or fails.
* A program step yields an `Outcome`: `ok fs` on success, or `err fs` when
  the uncaught error terminated the program with the filesystem in state
  `fs`.
-/

namespace GenerateIcons

/-- A path, as its list of components: "icons/icon-192.png" is
`["icons", "icon-192.png"]`. -/
abbrev Path := List String

/-- An axis-aligned coordinate box `[x0, y0, x1, y1]` as passed to the PIL
drawing calls. -/
structure Box where
  left : Int
  top : Int
  right : Int
  bottom : Int
  deriving DecidableEq, Repr

/-- Horizontal extent of a box. -/
def Box.width (b : Box) : Int := b.right - b.left

/-- Vertical extent of a box. -/
def Box.height (b : Box) : Int := b.bottom - b.top

/-- A box is well-ordered when its left edge is not to the right of its
right edge and its top edge is not below its bottom edge. -/
def Box.wellOrderedB (b : Box) : Bool :=
  decide (b.left ≤ b.right) && decide (b.top ≤ b.bottom)

/-- One drawing call of the script: the rounded-rectangle outline
(`draw.rounded_rectangle` with `radius`, `outline` color and stroke `width`,
no fill), or a filled rectangle (`draw.rectangle` with `fill` color). -/
inductive DrawOp where
  | roundedRect (box : Box) (radius : Nat) (outline : String) (width : Nat)
  | rect (box : Box) (fill : String)
  deriving DecidableEq, Repr

/-- The coordinate box of a drawing call. -/
def DrawOp.box : DrawOp → Box
  | .roundedRect b _ _ _ => b
  | .rect b _ => b

/-- An in-memory image: dimensions, the solid color the buffer was
initialised to, and the drawing calls applied to it, in order. -/
structure Icon where
  width : Nat
  height : Nat
  background : String
  ops : List DrawOp
  deriving DecidableEq, Repr

/-- `Image.new(mode, (w, h), color)`: a `w × h` buffer fully initialised to
`color`, with no drawing performed yet. -/
def imageNew (mode : String) (w h : Nat) (color : String) : Icon :=
  { width := w, height := h, background := color, ops := [] }

/-- Record one drawing call on the image. -/
def Icon.drawOp (img : Icon) (op : DrawOp) : Icon :=
  { img with ops := img.ops ++ [op] }

/-- An encoded file on disk: the raster it encodes and the image format it
was encoded in. -/
structure FileData where
  content : Icon
  format : String
  deriving DecidableEq, Repr

/-- The filesystem: the directories that exist and the contents of each
file path (`none` when no file exists there). -/
@[ext] structure FS where
  dirs : List Path
  files : Path → Option FileData

/-- The parent directory of a path: all components but the last. -/
def parentDir (p : Path) : Path := p.dropLast

/-- Create or overwrite the file at `p` with data `d`. -/
def FS.setFile (fs : FS) (p : Path) (d : FileData) : FS :=
  { fs with files := fun q => if q = p then some d else fs.files q }

/-- Result of running a side-effecting step: success, or termination by an
uncaught error, each carrying the filesystem state afterwards. -/
inductive Outcome where
  | ok (fs : FS)
  | err (fs : FS)

/-- The filesystem state an outcome left behind. -/
def Outcome.fs : Outcome → FS
  | .ok fs => fs
  | .err fs => fs

/-- Sequencing: run `f` on the state of a successful step; an error
terminates the program at once. -/
def Outcome.andThen (o : Outcome) (f : FS → Outcome) : Outcome :=
  match o with
  | .ok fs => f fs
  | .err fs => .err fs

/-- Modelled from the spec: `img.save(p, fmt)` is not part of the
repository's own code (it is the PIL library).  Per the spec it fails with a
filesystem error, leaving the filesystem unchanged, when the parent
directory of `p` does not exist; otherwise it creates or overwrites the
file at `p`, encoded in the explicitly passed format. -/
def save (fs : FS) (p : Path) (d : FileData) : Outcome :=
  if parentDir p ∈ fs.dirs then .ok (fs.setFile p d) else .err fs

/-- `padding = size // 10` (line 6). -/
def padding (size : Nat) : Nat := size / 10

/-- `border_width = max(2, size // 25)` (line 7). -/
def border_width (size : Nat) : Nat := max 2 (size / 25)

/-- `center = size // 2` (line 9). -/
def center (size : Nat) : Nat := size / 2

/-- `cross_size = size // 3` (line 10). -/
def cross_size (size : Nat) : Nat := size / 3

/-- `cross_width = size // 8` (line 11). -/
def cross_width (size : Nat) : Nat := size / 8

/-- The box `[padding, padding, size - padding, size - padding]` of the
rounded-rectangle outline (line 8). -/
def outlineBox (size : Nat) : Box :=
  { left := (padding size : Int)
    top := (padding size : Int)
    right := (size : Int) - (padding size : Int)
    bottom := (size : Int) - (padding size : Int) }

/-- The box of the vertical bar of the cross (line 12):
`[center - cross_width//2, center - cross_size//2,
  center + cross_width//2, center + cross_size//2]`. -/
def crossVBox (size : Nat) : Box :=
  { left := (center size : Int) - (cross_width size / 2 : Nat)
    top := (center size : Int) - (cross_size size / 2 : Nat)
    right := (center size : Int) + (cross_width size / 2 : Nat)
    bottom := (center size : Int) + (cross_size size / 2 : Nat) }

/-- The box of the horizontal bar of the cross (line 13):
`[center - cross_size//2, center - cross_width//2,
  center + cross_size//2, center + cross_width//2]`. -/
def crossHBox (size : Nat) : Box :=
  { left := (center size : Int) - (cross_size size / 2 : Nat)
    top := (center size : Int) - (cross_width size / 2 : Nat)
    right := (center size : Int) + (cross_size size / 2 : Nat)
    bottom := (center size : Int) + (cross_width size / 2 : Nat) }

/-- Lines 4-13 of `create_icon`: the in-memory image just before
`img.save`, that is the freshly allocated canvas with the three drawing
calls applied in source order. -/
def create_icon_image (size : Nat) : Icon :=
  let img := imageNew "RGB" size size "#0a0a0f"
  let img := img.drawOp
    (.roundedRect (outlineBox size) (size / 6) "#f0c674" (border_width size))
  let img := img.drawOp (.rect (crossVBox size) "#f0c674")
  let img := img.drawOp (.rect (crossHBox size) "#f0c674")
  img

/-- The file `create_icon` saves: the rendered image, encoded as PNG. -/
def iconFile (size : Nat) : FileData :=
  { content := create_icon_image size, format := "PNG" }

/-- `create_icon(size, output_path)` (lines 3-14): render the icon in
memory, then save it as PNG at `output_path`. -/
def create_icon (size : Nat) (output_path : Path) (fs : FS) : Outcome :=
  save fs output_path (iconFile size)

/-- The top level of the script (lines 16-17): the two invocations in
source order, the second running only if the first succeeded. -/
def script (fs : FS) : Outcome :=
  (create_icon 192 ["icons", "icon-192.png"] fs).andThen
    (create_icon 512 ["icons", "icon-512.png"])

end GenerateIcons

namespace GenerateIcons

/-! Helper lemmas shared by the proofs below. -/

theorem setFile_dirs (fs : FS) (p : Path) (d : FileData) :
    (fs.setFile p d).dirs = fs.dirs := rfl

theorem setFile_same (fs : FS) (p : Path) (d : FileData) :
    (fs.setFile p d).files p = some d := by
  simp [FS.setFile]

theorem setFile_other (fs : FS) (p q : Path) (d : FileData) (h : q ≠ p) :
    (fs.setFile p d).files q = fs.files q := by
  simp [FS.setFile, h]

theorem setFile_idem (fs : FS) (p : Path) (d : FileData) :
    (fs.setFile p d).setFile p d = fs.setFile p d := by
  refine FS.ext rfl ?_
  funext q
  by_cases h : q = p <;> simp [FS.setFile, h]

theorem setFile_comm (fs : FS) (p₁ p₂ : Path) (d₁ d₂ : FileData)
    (h : p₁ ≠ p₂) :
    (fs.setFile p₁ d₁).setFile p₂ d₂ = (fs.setFile p₂ d₂).setFile p₁ d₁ := by
  refine FS.ext rfl ?_
  funext q
  by_cases h₁ : q = p₁ <;> by_cases h₂ : q = p₂ <;>
    simp_all [FS.setFile]

theorem save_of_mem (fs : FS) (p : Path) (d : FileData)
    (h : parentDir p ∈ fs.dirs) : save fs p d = .ok (fs.setFile p d) := by
  simp [save, h]

theorem save_of_not_mem (fs : FS) (p : Path) (d : FileData)
    (h : parentDir p ∉ fs.dirs) : save fs p d = .err fs := by
  simp [save, h]

theorem create_icon_ok (s : Nat) (p : Path) (fs : FS)
    (h : parentDir p ∈ fs.dirs) :
    create_icon s p fs = .ok (fs.setFile p (iconFile s)) :=
  save_of_mem fs p (iconFile s) h

theorem create_icon_err (s : Nat) (p : Path) (fs : FS)
    (h : parentDir p ∉ fs.dirs) : create_icon s p fs = .err fs :=
  save_of_not_mem fs p (iconFile s) h

end GenerateIcons

namespace GenerateIcons

/-- A filesystem with no directories and no files. -/
def fs0 : FS := { dirs := [], files := fun _ => none }

/-- A filesystem in which just the directory "icons" exists, empty. -/
def fsIcons : FS := { dirs := [["icons"]], files := fun _ => none }

/-- C1: for every positive size `s`, the canvas allocated by
`create_icon(s, p)` is exactly `s` pixels wide and `s` pixels high and is
fully initialised to the solid fill color `#0a0a0f` before any drawing
occurs (the freshly allocated buffer carries no drawing operation). -/
theorem create_icon_canvas_size (s : Nat) (h : 0 < s) :
    (create_icon_image s).width = s ∧ (create_icon_image s).height = s ∧
    (create_icon_image s).background = "#0a0a0f" ∧
    (imageNew "RGB" s s "#0a0a0f").ops = [] :=
  ⟨rfl, rfl, rfl, rfl⟩

/-- Witness for `create_icon_canvas_size` at `s = 192`. -/
theorem create_icon_canvas_size_w :
    0 < 192 ∧
    ((create_icon_image 192).width = 192 ∧ (create_icon_image 192).height = 192 ∧
      (create_icon_image 192).background = "#0a0a0f" ∧
      (imageNew "RGB" 192 192 "#0a0a0f").ops = []) :=
  ⟨by decide, create_icon_canvas_size 192 (by decide)⟩

/-- C2 counterexample: at `size = 25` (every derived proportion is non-zero
there) the vertical bar's box spans `2` pixels horizontally while
`25 / 8 = 3`, so the bar does not have width `s / 8` as claimed. -/
theorem cross_bar_width_cex :
    ¬ ((crossVBox 25).width = ((25 / 8 : Nat) : Int)) := by decide

/-- C2 as amended: the two filled rectangles of the cross are both centered
at `(s / 2, s / 2)` (each box's coordinate sum is twice the center on both
axes), but each drawn dimension is the nominal one rounded down to an even
number: the vertical bar's box spans `2 * (s / 8 / 2)` horizontally and
`2 * (s / 3 / 2)` vertically, and the horizontal bar the transpose.  (At
the shipped sizes 192 and 512 these coincide with `s / 8` and `s / 3`.) -/
theorem cross_bars_geometry (s : Nat) (h : 0 < s) :
    DrawOp.rect (crossVBox s) "#f0c674" ∈ (create_icon_image s).ops ∧
    DrawOp.rect (crossHBox s) "#f0c674" ∈ (create_icon_image s).ops ∧
    (crossVBox s).left + (crossVBox s).right = 2 * ((s / 2 : Nat) : Int) ∧
    (crossVBox s).top + (crossVBox s).bottom = 2 * ((s / 2 : Nat) : Int) ∧
    (crossVBox s).width = 2 * ((s / 8 / 2 : Nat) : Int) ∧
    (crossVBox s).height = 2 * ((s / 3 / 2 : Nat) : Int) ∧
    (crossHBox s).left + (crossHBox s).right = 2 * ((s / 2 : Nat) : Int) ∧
    (crossHBox s).top + (crossHBox s).bottom = 2 * ((s / 2 : Nat) : Int) ∧
    (crossHBox s).width = 2 * ((s / 3 / 2 : Nat) : Int) ∧
    (crossHBox s).height = 2 * ((s / 8 / 2 : Nat) : Int) := by
  refine ⟨?_, ?_, ?_, ?_, ?_, ?_, ?_, ?_, ?_, ?_⟩
  · simp [create_icon_image, Icon.drawOp, imageNew]
  · simp [create_icon_image, Icon.drawOp, imageNew]
  all_goals
    simp only [crossVBox, crossHBox, Box.width, Box.height, center,
      cross_size, cross_width]
    omega

/-- Witness for `cross_bars_geometry` at `s = 192`. -/
theorem cross_bars_geometry_w :
    0 < 192 ∧
    (DrawOp.rect (crossVBox 192) "#f0c674" ∈ (create_icon_image 192).ops ∧
      DrawOp.rect (crossHBox 192) "#f0c674" ∈ (create_icon_image 192).ops ∧
      (crossVBox 192).left + (crossVBox 192).right = 2 * ((192 / 2 : Nat) : Int) ∧
      (crossVBox 192).top + (crossVBox 192).bottom = 2 * ((192 / 2 : Nat) : Int) ∧
      (crossVBox 192).width = 2 * ((192 / 8 / 2 : Nat) : Int) ∧
      (crossVBox 192).height = 2 * ((192 / 3 / 2 : Nat) : Int) ∧
      (crossHBox 192).left + (crossHBox 192).right = 2 * ((192 / 2 : Nat) : Int) ∧
      (crossHBox 192).top + (crossHBox 192).bottom = 2 * ((192 / 2 : Nat) : Int) ∧
      (crossHBox 192).width = 2 * ((192 / 3 / 2 : Nat) : Int) ∧
      (crossHBox 192).height = 2 * ((192 / 8 / 2 : Nat) : Int)) :=
  ⟨by decide, cross_bars_geometry 192 (by decide)⟩

/-- C3: for every positive size `s`, `create_icon` draws an unfilled
rounded-rectangle outline whose bounding box runs from
`(padding, padding)` to `(s - padding, s - padding)` with
`padding = s / 10`, corner radius `s / 6`, stroke color `#f0c674` and
stroke width `border_width s`. -/
theorem outline_rect_drawn (s : Nat) (h : 0 < s) :
    DrawOp.roundedRect
        { left := ((s / 10 : Nat) : Int), top := ((s / 10 : Nat) : Int),
          right := (s : Int) - ((s / 10 : Nat) : Int),
          bottom := (s : Int) - ((s / 10 : Nat) : Int) }
        (s / 6) "#f0c674" (border_width s) ∈ (create_icon_image s).ops := by
  simp [create_icon_image, Icon.drawOp, imageNew, outlineBox, padding]

/-- Witness for `outline_rect_drawn` at `s = 192`. -/
theorem outline_rect_drawn_w :
    0 < 192 ∧
    DrawOp.roundedRect
        { left := ((192 / 10 : Nat) : Int), top := ((192 / 10 : Nat) : Int),
          right := (192 : Int) - ((192 / 10 : Nat) : Int),
          bottom := (192 : Int) - ((192 / 10 : Nat) : Int) }
        (192 / 6) "#f0c674" (border_width 192) ∈ (create_icon_image 192).ops :=
  ⟨by decide, outline_rect_drawn 192 (by decide)⟩

/-- C4: the border width computed by `create_icon` equals
`max 2 (s / 25)` with integer-truncating division, and is therefore at
least `2` pixels no matter how small `s` is. -/
theorem border_width_min (s : Nat) :
    border_width s = max 2 (s / 25) ∧ 2 ≤ border_width s :=
  ⟨rfl, le_max_left 2 (s / 25)⟩

/-- C5: the top level of the script is exactly the two invocations
`create_icon 192 "icons/icon-192.png"` then
`create_icon 512 "icons/icon-512.png"`, and it touches no other file: on
any starting filesystem, every path other than the two output paths holds
the same contents afterwards. -/
theorem script_top_level_calls (fs : FS) :
    script fs = (create_icon 192 ["icons", "icon-192.png"] fs).andThen
        (create_icon 512 ["icons", "icon-512.png"]) ∧
    ∀ q : Path, q ≠ ["icons", "icon-192.png"] → q ≠ ["icons", "icon-512.png"] →
      (script fs).fs.files q = fs.files q := by
  refine ⟨rfl, fun q h1 h2 => ?_⟩
  unfold script
  by_cases hm : parentDir ["icons", "icon-192.png"] ∈ fs.dirs
  · rw [create_icon_ok 192 ["icons", "icon-192.png"] fs hm]
    simp only [Outcome.andThen]
    rw [create_icon_ok 512 ["icons", "icon-512.png"]
      (fs.setFile ["icons", "icon-192.png"] (iconFile 192)) hm]
    simp only [Outcome.fs]
    rw [setFile_other _ _ _ _ h2, setFile_other _ _ _ _ h1]
  · rw [create_icon_err 192 ["icons", "icon-192.png"] fs hm]
    rfl

/-- Witness for `script_top_level_calls` on the empty filesystem and the
path "other.png". -/
theorem script_top_level_calls_w :
    (["other.png"] : Path) ≠ ["icons", "icon-192.png"] ∧
    (["other.png"] : Path) ≠ ["icons", "icon-512.png"] ∧
    (script fs0).fs.files ["other.png"] = fs0.files ["other.png"] :=
  ⟨by decide, by decide,
    (script_top_level_calls fs0).2 ["other.png"] (by decide) (by decide)⟩

/-- C6: when the parent directory of `output_path` does not exist,
`create_icon` terminates with a filesystem error and the filesystem is
unchanged: no file is created at `output_path`. -/
theorem create_icon_missing_parent (s : Nat) (p : Path) (fs : FS)
    (h : parentDir p ∉ fs.dirs) : create_icon s p fs = .err fs := by
  unfold create_icon
  exact save_of_not_mem _ _ _ h

/-- Witness for `create_icon_missing_parent`: the empty filesystem has no
"icons" directory, and the call errors out leaving it unchanged. -/
theorem create_icon_missing_parent_w :
    parentDir ["icons", "icon-192.png"] ∉ fs0.dirs ∧
    create_icon 192 ["icons", "icon-192.png"] fs0 = .err fs0 :=
  ⟨by decide,
    create_icon_missing_parent 192 ["icons", "icon-192.png"] fs0 (by decide)⟩

/-- C7: `create_icon` is deterministic and idempotent: running it a second
time with the same `(size, output_path)` arguments from the state the
first run produced changes nothing, because the second run overwrites the
file with the identical rendered content. -/
theorem create_icon_idempotent (s : Nat) (p : Path) (fs : FS) :
    (create_icon s p fs).andThen (create_icon s p) = create_icon s p fs := by
  by_cases h : parentDir p ∈ fs.dirs
  · rw [create_icon_ok s p fs h]
    simp only [Outcome.andThen]
    rw [create_icon_ok s p (fs.setFile p (iconFile s)) h, setFile_idem]
  · rw [create_icon_err s p fs h]
    rfl

/-- C8: the two top-level invocations commute: running the 512-pixel call
before the 192-pixel call reaches the same final outcome as the script's
own order, on every starting filesystem. -/
theorem top_level_invocations_commute (fs : FS) :
    (create_icon 512 ["icons", "icon-512.png"] fs).andThen
        (create_icon 192 ["icons", "icon-192.png"]) = script fs := by
  unfold script
  by_cases h : parentDir ["icons", "icon-192.png"] ∈ fs.dirs
  · rw [create_icon_ok 512 ["icons", "icon-512.png"] fs h,
      create_icon_ok 192 ["icons", "icon-192.png"] fs h]
    simp only [Outcome.andThen]
    rw [create_icon_ok 192 ["icons", "icon-192.png"]
        (fs.setFile ["icons", "icon-512.png"] (iconFile 512)) h,
      create_icon_ok 512 ["icons", "icon-512.png"]
        (fs.setFile ["icons", "icon-192.png"] (iconFile 192)) h,
      setFile_comm fs ["icons", "icon-512.png"] ["icons", "icon-192.png"]
        (iconFile 512) (iconFile 192) (by decide)]
  · rw [create_icon_err 512 ["icons", "icon-512.png"] fs h,
      create_icon_err 192 ["icons", "icon-192.png"] fs h]
    rfl

/-- C9: for every positive size `s`, every coordinate box passed to a
drawing call of `create_icon` is well-ordered: left edge at or before the
right edge and top edge at or above the bottom edge. -/
theorem draw_boxes_well_ordered (s : Nat) (h : 0 < s) :
    ((create_icon_image s).ops.all fun op => op.box.wellOrderedB) = true := by
  simp only [create_icon_image, Icon.drawOp, imageNew, List.nil_append,
    List.cons_append, List.all_cons, List.all_nil, Bool.and_true,
    Bool.and_eq_true, DrawOp.box, Box.wellOrderedB, decide_eq_true_eq,
    outlineBox, crossVBox, crossHBox, padding, center, cross_size,
    cross_width]
  omega

/-- Witness for `draw_boxes_well_ordered` at `s = 192`. -/
theorem draw_boxes_well_ordered_w :
    0 < 192 ∧
    ((create_icon_image 192).ops.all fun op => op.box.wellOrderedB) = true :=
  ⟨by decide, draw_boxes_well_ordered 192 (by decide)⟩

/-- C10: whenever the save succeeds, the file written at `output_path` is
encoded in PNG format, for every path whatever its extension, because the
format is passed explicitly to the save call. -/
theorem saved_format_png (s : Nat) (p : Path) (fs : FS)
    (h : parentDir p ∈ fs.dirs) :
    ((create_icon s p fs).fs.files p).map FileData.format = some "PNG" := by
  unfold create_icon
  rw [save_of_mem _ _ _ h]
  simp only [Outcome.fs]
  rw [setFile_same]
  rfl

/-- Witness for `saved_format_png` on a path whose extension is not
".png": the written file is still PNG-encoded. -/
theorem saved_format_png_w :
    parentDir ["icons", "icon-192.jpg"] ∈ fsIcons.dirs ∧
    ((create_icon 192 ["icons", "icon-192.jpg"] fsIcons).fs.files
        ["icons", "icon-192.jpg"]).map FileData.format = some "PNG" :=
  ⟨by decide,
    saved_format_png 192 ["icons", "icon-192.jpg"] fsIcons (by decide)⟩

end GenerateIcons
